import Mathlib

/-!
Verification of the distributed token-bucket rate limiter of the
streaming-platform backend (`app/core/redis_rate_limiter.py` and
`app/utils/helper.py`), shallowly embedded in Lean 4.

Lua numbers (and Python floats) are modelled as exact rationals `ℚ`;
Python `int(...)` is truncation toward zero; fallible construction is
`Except`.  The Lua script runs atomically inside Redis, so a concurrent
execution of several script invocations is modelled as a serialisation:
a sequence of applications of the script's state transformer.
-/

namespace TokenBucket

/-- Persisted bucket state: the two hash fields `tokens` and `last_refill`
stored under the bucket key (`redis_rate_limiter.py`, line 57). -/
structure BucketState where
  tokens : ℚ
  last_refill : ℚ
  deriving DecidableEq, Repr

/-- The triple `{allowed, tokens, reset_ts}` returned by the Lua script
(`redis_rate_limiter.py`, line 62). -/
structure ConsumeResult where
  allowed : Bool
  tokens : ℚ
  reset_ts : ℚ
  deriving DecidableEq, Repr

/-- The Lua script `LUA_TOKEN_BUCKET` (`redis_rate_limiter.py`, lines 22-63):
read `tokens`/`last_refill` (defaulting to `capacity`/`now` when the key is
absent), refill when `elapsed > 0`, consume when `tokens >= consume`, compute
`reset_ts`, persist the state and set the key expiry
`math.ceil((capacity / refill_rate) * 2)`.  Returns the script result, the
persisted state and the expiry in seconds. -/
def luaTokenBucket (capacity refill_rate now cost : ℚ)
    (stored : Option BucketState) : ConsumeResult × BucketState × ℤ :=
  let tokens0 := (stored.map BucketState.tokens).getD capacity
  let last0 := (stored.map BucketState.last_refill).getD now
  let elapsed := now - last0
  let tokens1 := if 0 < elapsed then min capacity (tokens0 + elapsed * refill_rate)
    else tokens0
  let last1 := if 0 < elapsed then now else last0
  let allowed := decide (cost ≤ tokens1)
  let tokens2 := if cost ≤ tokens1 then tokens1 - cost else tokens1
  let reset_ts : ℚ :=
    if 1 ≤ tokens2 then now else now + (1 - tokens2) / refill_rate
  let expire_seconds : ℤ := ⌈(capacity / refill_rate) * 2⌉
  (⟨allowed, tokens2, reset_ts⟩, ⟨tokens2, last1⟩, expire_seconds)

/-- Python `int(x)` on a float: truncation toward zero. -/
def pyInt (q : ℚ) : ℤ := if 0 ≤ q then ⌊q⌋ else ⌈q⌉

/-- The `info` dict built by `RedisTokenBucketRateLimiter.is_allowed`
(`redis_rate_limiter.py`, lines 120-135): `limit`, `remaining`, `reset`. -/
structure LimiterInfo where
  limit : ℤ
  remaining : ℤ
  reset : ℤ
  deriving DecidableEq, Repr

/-- `RedisTokenBucketRateLimiter.is_allowed` (`redis_rate_limiter.py`,
lines 91-136).  `scriptOk = false` models the `except Exception` branch:
the Lua call raised (store unreachable, script failure, timeout), so the
method logs and fails open, returning
`(True, {limit: capacity, remaining: capacity,
reset: int(now + capacity / max(1e-6, refill_rate))})` and leaving the
store untouched.  On success it converts the script result:
`remaining = int(tokens_left) if tokens_left >= 0 else 0`,
`reset = int(reset_ts)`.  Returns `((allowed, info), store state after
the call)`. -/
def is_allowed (capacity : ℤ) (refill_rate now cost : ℚ)
    (stored : Option BucketState) (scriptOk : Bool) :
    (Bool × LimiterInfo) × Option BucketState :=
  if scriptOk then
    let r := luaTokenBucket (capacity : ℚ) refill_rate now cost stored
    ((r.1.allowed,
      ⟨capacity,
       if 0 ≤ r.1.tokens then pyInt r.1.tokens else 0,
       pyInt r.1.reset_ts⟩),
     some r.2.1)
  else
    ((true,
      ⟨capacity, capacity,
       pyInt (now + (capacity : ℚ) / max (1 / 1000000) refill_rate)⟩),
     stored)

/-- C1 — the Lua consume step: with `(tokens0, last0)` the stored state (or
`(capacity, now)` when absent) and `t1` the refilled token count, the call
allows and persists `t1 - cost` exactly when `t1 ≥ cost`, otherwise denies
and persists `t1`; `last_refill` becomes `now` exactly when `now - last0 > 0`
and stays `last0` otherwise. -/
theorem C1_consume_semantics (capacity refill_rate now cost : ℚ)
    (_hcost : 0 ≤ cost) (stored : Option BucketState) :
    (((luaTokenBucket capacity refill_rate now cost stored).1.allowed = true ↔
        cost ≤ (if 0 < now - ((stored.map BucketState.last_refill).getD now)
          then min capacity
            (((stored.map BucketState.tokens).getD capacity)
              + (now - ((stored.map BucketState.last_refill).getD now)) * refill_rate)
          else (stored.map BucketState.tokens).getD capacity))
      ∧ (luaTokenBucket capacity refill_rate now cost stored).2.1.tokens =
        (let t1 := if 0 < now - ((stored.map BucketState.last_refill).getD now)
          then min capacity
            (((stored.map BucketState.tokens).getD capacity)
              + (now - ((stored.map BucketState.last_refill).getD now)) * refill_rate)
          else (stored.map BucketState.tokens).getD capacity
         if cost ≤ t1 then t1 - cost else t1)
      ∧ (luaTokenBucket capacity refill_rate now cost stored).2.1.last_refill =
        (if 0 < now - ((stored.map BucketState.last_refill).getD now) then now
         else (stored.map BucketState.last_refill).getD now)) := by
  refine ⟨?_, ?_, ?_⟩ <;> simp only [luaTokenBucket, decide_eq_true_eq]

/-- Witness for C1 at a concrete input: capacity 5, refill rate 1, stored
state (2 tokens, last refill 0), consume of cost 1 at time 3. -/
theorem C1_consume_semantics_witness :
    (0 : ℚ) ≤ 1 ∧
    (((luaTokenBucket 5 1 3 1 (some ⟨2, 0⟩)).1.allowed = true ↔
        (1 : ℚ) ≤ (if 0 < (3 : ℚ) - (((some (⟨2, 0⟩ : BucketState)).map BucketState.last_refill).getD 3)
          then min 5
            ((((some (⟨2, 0⟩ : BucketState)).map BucketState.tokens).getD 5)
              + ((3 : ℚ) - (((some (⟨2, 0⟩ : BucketState)).map BucketState.last_refill).getD 3)) * 1)
          else ((some (⟨2, 0⟩ : BucketState)).map BucketState.tokens).getD 5))
      ∧ (luaTokenBucket 5 1 3 1 (some ⟨2, 0⟩)).2.1.tokens =
        (let t1 := if 0 < (3 : ℚ) - (((some (⟨2, 0⟩ : BucketState)).map BucketState.last_refill).getD 3)
          then min 5
            ((((some (⟨2, 0⟩ : BucketState)).map BucketState.tokens).getD 5)
              + ((3 : ℚ) - (((some (⟨2, 0⟩ : BucketState)).map BucketState.last_refill).getD 3)) * 1)
          else ((some (⟨2, 0⟩ : BucketState)).map BucketState.tokens).getD 5
         if (1 : ℚ) ≤ t1 then t1 - 1 else t1)
      ∧ (luaTokenBucket 5 1 3 1 (some ⟨2, 0⟩)).2.1.last_refill =
        (if 0 < (3 : ℚ) - (((some (⟨2, 0⟩ : BucketState)).map BucketState.last_refill).getD 3) then 3
         else ((some (⟨2, 0⟩ : BucketState)).map BucketState.last_refill).getD 3)) :=
  ⟨by norm_num, C1_consume_semantics 5 1 3 1 (by norm_num) (some ⟨2, 0⟩)⟩

/-- The bounds invariant on a stored bucket state: absent, or
`0 ≤ tokens ≤ capacity`. -/
def goodState (capacity : ℚ) : Option BucketState → Prop
  | none => True
  | some s => 0 ≤ s.tokens ∧ s.tokens ≤ capacity

/-- One consume step preserves the bounds invariant, given
`0 ≤ capacity`, `0 < refill_rate` and `0 ≤ cost`. -/
theorem luaTokenBucket_preserves_goodState (capacity refill_rate now cost : ℚ)
    (hcap : 0 ≤ capacity) (hrate : 0 < refill_rate) (hcost : 0 ≤ cost)
    (st : Option BucketState) (h : goodState capacity st) :
    goodState capacity (some (luaTokenBucket capacity refill_rate now cost st).2.1) := by
  have htok : 0 ≤ (st.map BucketState.tokens).getD capacity ∧
      (st.map BucketState.tokens).getD capacity ≤ capacity := by
    cases st with
    | none => refine ⟨?_, ?_⟩ <;> simp [hcap]
    | some s => simpa using h
  simp only [luaTokenBucket, goodState]
  set tokens0 := (st.map BucketState.tokens).getD capacity with ht0
  set last0 := (st.map BucketState.last_refill).getD now with hl0
  set t1 := if 0 < now - last0 then min capacity (tokens0 + (now - last0) * refill_rate)
    else tokens0 with ht1
  have h1 : 0 ≤ t1 ∧ t1 ≤ capacity := by
    rw [ht1]
    by_cases hel : 0 < now - last0
    · simp only [hel, if_true]
      have hrefill : 0 ≤ (now - last0) * refill_rate :=
        le_of_lt (mul_pos hel hrate)
      exact ⟨le_min hcap (by linarith [htok.1]), min_le_left _ _⟩
    · simp only [hel, if_false]
      exact htok
  by_cases hge : cost ≤ t1
  · simp only [hge, if_true]
    exact ⟨by linarith [h1.1, h1.2], by linarith [h1.2]⟩
  · simp only [hge, if_false]
    exact h1

/-- A sequence of consume operations: each element of `ops` is a pair
`(now, cost)` and each step applies the Lua script atomically, persisting
its state (the serialisation of any concurrent schedule). -/
def runOps (capacity refill_rate : ℚ) (st : Option BucketState)
    (ops : List (ℚ × ℚ)) : Option BucketState :=
  ops.foldl
    (fun s op => some (luaTokenBucket capacity refill_rate op.1 op.2 s).2.1) st

/-- C2 — bounds invariant: for every sequence of consume operations with
`capacity ≥ 0`, `refill_rate > 0` and every cost ≥ 0, starting from the
absent-key state or any state with `0 ≤ tokens ≤ capacity`, the persisted
tokens value stays in `[0, capacity]` (the theorem quantifies over all
operation lists, so it covers the state after every prefix). -/
theorem C2_bounds_invariant (capacity refill_rate : ℚ)
    (hcap : 0 ≤ capacity) (hrate : 0 < refill_rate)
    (st0 : Option BucketState) (h0 : goodState capacity st0)
    (ops : List (ℚ × ℚ)) (hops : ∀ op ∈ ops, 0 ≤ op.2) :
    goodState capacity (runOps capacity refill_rate st0 ops) := by
  induction ops generalizing st0 with
  | nil => exact h0
  | cons op rest ih =>
      have hcost : 0 ≤ op.2 := hops op (List.mem_cons_self op rest)
      have hrest : ∀ o ∈ rest, 0 ≤ o.2 := fun o ho => hops o (List.mem_cons_of_mem op ho)
      exact ih _
        (luaTokenBucket_preserves_goodState capacity refill_rate op.1 op.2
          hcap hrate hcost st0 h0) hrest

/-- Witness for C2: capacity 5, refill rate 1, fresh bucket, two cost-1
consumes at times 0 and 2. -/
theorem C2_bounds_invariant_witness :
    (0 : ℚ) ≤ 5 ∧ (0 : ℚ) < 1 ∧
    goodState 5 (runOps 5 1 none [(0, 1), (2, 1)]) :=
  ⟨by norm_num, by norm_num,
    C2_bounds_invariant 5 1 (by norm_num) (by norm_num) none trivial
      [(0, 1), (2, 1)] (by intro op hop; fin_cases hop <;> norm_num)⟩

/-- `N` cost-1 consume calls sharing one timestamp `now`, executed in the
(unique) serial order the atomic script imposes; returns the list of
`allowed` results. -/
def consumeSeq (capacity refill_rate now : ℚ) :
    Nat → Option BucketState → List Bool
  | 0, _ => []
  | Nat.succ n, st =>
      let r := luaTokenBucket capacity refill_rate now 1 st
      r.1.allowed :: consumeSeq capacity refill_rate now n (some r.2.1)

/-- From a state holding a natural number `m` of tokens with
`last_refill = now`, exactly `min N m` of `N` cost-1 calls at time `now`
are allowed. -/
theorem consumeSeq_count_from_nat (capacity refill_rate now : ℚ)
    (N : Nat) : ∀ m : Nat,
    (consumeSeq capacity refill_rate now N (some ⟨(m : ℚ), now⟩)).count true
      = min N m := by
  induction N with
  | zero => intro m; simp [consumeSeq]
  | succ n ih =>
      intro m
      cases m with
      | zero =>
          have hno : ¬ (1 : ℚ) ≤ ((0 : Nat) : ℚ) := by norm_num
          simp only [consumeSeq, luaTokenBucket, Option.map_some', Option.getD_some,
            sub_self, lt_self_iff_false, if_false, hno]
          simpa using ih 0
      | succ k =>
          have hyes : (1 : ℚ) ≤ ((k + 1 : Nat) : ℚ) := by
            push_cast; linarith [Nat.cast_nonneg (α := ℚ) k]
          have hsub : ((k + 1 : Nat) : ℚ) - 1 = ((k : Nat) : ℚ) := by push_cast; ring
          simp only [consumeSeq, luaTokenBucket, Option.map_some', Option.getD_some,
            sub_self, lt_self_iff_false, if_false, hyes, if_true, hsub]
          rw [List.count_cons]
          simp only [ih k]
          simp [Nat.succ_min_succ]

/-- On an absent key the script behaves as on the state
`(capacity, now)` (used to reduce the fresh-bucket case to
`consumeSeq_count_from_nat`). -/
theorem luaTokenBucket_none_eq_full (capacity refill_rate now cost : ℚ) :
    luaTokenBucket capacity refill_rate now cost none
      = luaTokenBucket capacity refill_rate now cost (some ⟨capacity, now⟩) := by
  simp [luaTokenBucket]

/-- C3 — no double-spend: the Lua script runs atomically, so every
interleaving of `N` concurrent cost-1 calls at time `now` against a fresh
bucket of capacity `C` is a serialisation of the `N` identical calls;
exactly `min N C` of them are allowed (in particular two callers contending
for the last token never both succeed). -/
theorem C3_no_double_spend (C N : Nat) (refill_rate now : ℚ) :
    (consumeSeq (C : ℚ) refill_rate now N none).count true = min N C := by
  cases N with
  | zero => simp [consumeSeq]
  | succ n =>
      have hstep := luaTokenBucket_none_eq_full (C : ℚ) refill_rate now 1
      simp only [consumeSeq, hstep]
      exact consumeSeq_count_from_nat (C : ℚ) refill_rate now (n + 1) C

/-- C5 — reset time: the script's `reset_ts` is `now` when the
post-operation token count is at least 1, and
`now + (1 - tokens) / refill_rate` otherwise. -/
theorem C5_reset_ts (capacity refill_rate now cost : ℚ)
    (stored : Option BucketState) :
    (luaTokenBucket capacity refill_rate now cost stored).1.reset_ts =
      (if 1 ≤ (luaTokenBucket capacity refill_rate now cost stored).1.tokens
       then now
       else now + (1 - (luaTokenBucket capacity refill_rate now cost stored).1.tokens)
              / refill_rate) := rfl

/-- C9 — persistence and expiry: every call persists the updated tokens
(and `last_refill`) and sets the key expiry to
`⌈2 * capacity / refill_rate⌉` seconds, and consuming from an absent
(reclaimed) key is identical to consuming from a full bucket
`(capacity, now)`. -/
theorem C9_persist_and_expire (capacity refill_rate now cost : ℚ)
    (stored : Option BucketState) :
    ((luaTokenBucket capacity refill_rate now cost stored).2.2
        = ⌈2 * capacity / refill_rate⌉
      ∧ (luaTokenBucket capacity refill_rate now cost stored).2.1.tokens
        = (luaTokenBucket capacity refill_rate now cost stored).1.tokens
      ∧ luaTokenBucket capacity refill_rate now cost none
        = luaTokenBucket capacity refill_rate now cost (some ⟨capacity, now⟩)) := by
  refine ⟨?_, rfl, luaTokenBucket_none_eq_full capacity refill_rate now cost⟩
  have h2 : (capacity / refill_rate) * 2 = 2 * capacity / refill_rate := by ring
  simp only [luaTokenBucket, h2]

/-- C4 (amended) — fail-open on store error: when the Lua call raises,
`is_allowed` returns `allowed = true`, `remaining = limit = capacity` and
`reset = int(now + capacity / max(1e-6, refill_rate))` (truncated toward
zero), and the stored bucket state is not modified. -/
theorem C4_fail_open (capacity : ℤ) (refill_rate now cost : ℚ)
    (stored : Option BucketState) :
    ((is_allowed capacity refill_rate now cost stored false).1.1 = true
      ∧ (is_allowed capacity refill_rate now cost stored false).1.2.remaining
        = (is_allowed capacity refill_rate now cost stored false).1.2.limit
      ∧ (is_allowed capacity refill_rate now cost stored false).1.2.remaining = capacity
      ∧ (is_allowed capacity refill_rate now cost stored false).1.2.reset
        = pyInt (now + (capacity : ℚ) / max (1 / 1000000) refill_rate)
      ∧ (is_allowed capacity refill_rate now cost stored false).2 = stored) :=
  ⟨rfl, rfl, rfl, rfl, rfl⟩

/-- C4 counterexample — the claim's `reset = now + capacity / refill_rate`
fails literally: with capacity 1, refill rate 1 and `now = 1/2`, the code's
`reset` is `int(1/2 + 1) = 1`, not `3/2` (`int()` truncates). -/
theorem C4_reset_counterexample :
    ¬ ((((is_allowed 1 1 (1 / 2) 1 none false).1.2.reset : ℤ) : ℚ)
        = 1 / 2 + (1 : ℚ) / 1) := by
  norm_num [is_allowed, pyInt]

/-- `RedisTokenBucketRateLimiter` configuration, as stored by `__init__`
(`redis_rate_limiter.py`, lines 74-85): `capacity = int(capacity)`,
`refill_rate = float(refill_rate)` and the key `prefixStr`. -/
structure RedisTokenBucketRateLimiter where
  capacity : ℤ
  refill_rate : ℚ
  prefixStr : String
  deriving DecidableEq, Repr

/-- `RedisTokenBucketRateLimiter.__init__` (`redis_rate_limiter.py`, lines
74-85): stores the arguments and registers the script.  It contains no
validation and no raise, so construction always succeeds; `Except` records
that the constructor could in principle fail. -/
def limiterInit (capacity : ℤ) (refill_rate : ℚ) (prefixStr : String) :
    Except String RedisTokenBucketRateLimiter :=
  Except.ok ⟨capacity, refill_rate, prefixStr⟩

/-- `RedisTokenBucketRateLimiter._key` (`redis_rate_limiter.py`, lines
87-89). -/
def limiterKey (l : RedisTokenBucketRateLimiter) (identifier : String) : String :=
  l.prefixStr ++ identifier

/-- C7 counterexample — constructing with `capacity = 0` and
`refill_rate = 0` does not fail: `__init__` returns a limiter object. -/
theorem C7_counterexample :
    limiterInit 0 0 "rl:"
      = Except.ok (⟨0, 0, "rl:"⟩ : RedisTokenBucketRateLimiter) := rfl

/-- C7 (amended) — no configuration-time validation: a degenerate
configuration (`capacity ≤ 0` or `refill_rate ≤ 0`) is silently accepted
by the constructor and deferred to request time. -/
theorem C7_no_config_validation (capacity : ℤ) (refill_rate : ℚ)
    (prefixStr : String) (_hdeg : capacity ≤ 0 ∨ refill_rate ≤ 0) :
    ∃ l, limiterInit capacity refill_rate prefixStr = Except.ok l :=
  ⟨⟨capacity, refill_rate, prefixStr⟩, rfl⟩

/-- Witness for C7 (amended) at the degenerate configuration
`capacity = 0`, `refill_rate = 0`. -/
theorem C7_no_config_validation_witness :
    ((0 : ℤ) ≤ 0 ∨ (0 : ℚ) ≤ 0)
    ∧ ∃ l, limiterInit 0 0 "rl:" = Except.ok l :=
  ⟨Or.inl (by norm_num), C7_no_config_validation 0 0 "rl:" (Or.inl (by norm_num))⟩

/-- The parts of a FastAPI `Request` the rate limiter reads:
`headers.get("Authorization")`, `headers.get("X-Forwarded-For")` and
`request.client.host` (absent when `request.client` is `None`). -/
structure Request where
  authorization : Option String
  xForwardedFor : Option String
  clientHost : Option String
  deriving DecidableEq, Repr

/-- Python truthiness of an optional string: `None` and `""` are falsy. -/
def pyTruthy : Option String → Bool
  | none => false
  | some s => !(s == "")

/-- Python `s.startswith(pre)`, over code points. -/
def pyStartsWith (s pre : String) : Bool := pre.data.isPrefixOf s.data

/-- Python `s[n:]`, over code points. -/
def pySlice (s : String) (n : Nat) : String := ⟨s.data.drop n⟩

/-- Python `s.split(",")[0]`: the characters before the first comma. -/
def pyBeforeComma (s : String) : String :=
  ⟨s.data.takeWhile (fun c => !(c == ','))⟩

/-- Python `s.strip()`: remove leading and trailing whitespace. -/
def pyStrip (s : String) : String :=
  ⟨((s.data.dropWhile Char.isWhitespace).reverse.dropWhile
      Char.isWhitespace).reverse⟩

/-- `get_client_ip` (`helper.py`, lines 4-12): first address of
`X-Forwarded-For` when that header is truthy, else `request.client.host`,
else `"unknown"`. -/
def get_client_ip (r : Request) : String :=
  if pyTruthy r.xForwardedFor then
    pyStrip (pyBeforeComma (r.xForwardedFor.getD ""))
  else
    match r.clientHost with
    | some h => h
    | none => "unknown"

/-- `get_user_identifier` (`helper.py`, lines 15-23): the bearer token when
the `Authorization` header is truthy and starts with `"Bearer "`, else
`get_client_ip`. -/
def get_user_identifier (r : Request) : String :=
  if pyTruthy r.authorization
      && pyStartsWith (r.authorization.getD "") "Bearer " then
    pySlice (r.authorization.getD "") 7
  else
    get_client_ip r

/-- Identifier resolution in the decorator (`redis_rate_limiter.py`, lines
198-203): the supplied `get_identifier` when given, otherwise the default
`request.client.host if request.client else "unknown"`. -/
def resolveIdentifier (getIdentifier : Option (Request → String))
    (r : Request) : String :=
  match getIdentifier with
  | some f => f r
  | none =>
      match r.clientHost with
      | some h => h
      | none => "unknown"

/-- C8 counterexample — for a request carrying `Authorization:
Bearer tok123` from address `203.0.113.7`, the decorator default resolves
to the address, while the bearer-preferring `get_user_identifier` (the
claim's description of the default) yields the token. -/
theorem C8_counterexample :
    resolveIdentifier none ⟨some "Bearer tok123", none, some "203.0.113.7"⟩
        = "203.0.113.7"
    ∧ get_user_identifier ⟨some "Bearer tok123", none, some "203.0.113.7"⟩
        = "tok123"
    ∧ resolveIdentifier none ⟨some "Bearer tok123", none, some "203.0.113.7"⟩
        ≠ get_user_identifier ⟨some "Bearer tok123", none, some "203.0.113.7"⟩ := by
  refine ⟨rfl, ?_, ?_⟩ <;> decide

/-- C8 (amended) — when no identifier function is supplied, the default
identifier is the caller's network address (`request.client.host`) when a
client is present, else `"unknown"`; the `Authorization` header (and any
other header) plays no part in the default. -/
theorem C8_default_identifier (auth xff host : Option String) :
    (resolveIdentifier none ⟨auth, xff, host⟩
        = (match host with | some h => h | none => "unknown"))
    ∧ ∀ auth2 xff2 : Option String,
        resolveIdentifier none ⟨auth, xff, host⟩
          = resolveIdentifier none ⟨auth2, xff2, host⟩ :=
  ⟨rfl, fun _ _ => rfl⟩

/-- Outcome of one pass through the decorator's `wrapper`
(`redis_rate_limiter.py`, lines 164-229). -/
inductive WrapperOutcome where
  /-- The endpoint ran and the response carries no rate-limit headers
  (test-environment short-circuit, line 167, or missing Redis client,
  line 188). -/
  | endpointOnly : WrapperOutcome
  /-- `ValueError`: no `Request` argument was found (lines 177-181). -/
  | valueError : WrapperOutcome
  /-- `HTTPException(429)` with `X-RateLimit-*` and `Retry-After` headers
  (lines 208-218). -/
  | rejected (limit remaining reset retryAfter : ℤ) : WrapperOutcome
  /-- The endpoint ran and the response carries the `X-RateLimit-*`
  headers (lines 221-229). -/
  | endpointWithHeaders (limit remaining reset : ℤ) : WrapperOutcome
  deriving DecidableEq, Repr

/-- Per-call inputs of one `wrapper` invocation: the request found among
the endpoint arguments (if any), whether `app.state` has a Redis client,
the clock reading `now`, whether the Lua call succeeds, and the second
clock reading `int(time.time())` used for `Retry-After`. -/
structure WrapperCall where
  request : Option Request
  hasRedis : Bool
  now : ℚ
  scriptOk : Bool
  nowInt : ℤ
  deriving DecidableEq, Repr

/-- Result of one `wrapper` invocation: the outcome, whether the store was
contacted, the store state afterwards, and the bucket key used (when a
rate-limit check happened). -/
structure WrapperResult where
  outcome : WrapperOutcome
  storeContacted : Bool
  stored : Option BucketState
  keyUsed : Option String
  deriving Repr

/-- The decorator's `wrapper` (`redis_rate_limiter.py`, lines 164-229):
skip entirely when `settings.ENVIRONMENT == "test"`; `ValueError` when no
request is found; skip when `app.state` has no Redis client; otherwise
build the per-endpoint limiter with key prefix
`prefixStr ++ funcName ++ ":"`, resolve the identifier, call `is_allowed`
with cost 1, and either raise 429 with retry metadata or run the endpoint
and attach the headers. -/
def wrapper (env : String) (capacity : ℤ) (refill_rate : ℚ)
    (prefixStr funcName : String)
    (getIdentifier : Option (Request → String))
    (call : WrapperCall) (stored : Option BucketState) : WrapperResult :=
  if env = "test" then ⟨.endpointOnly, false, stored, none⟩
  else
    match call.request with
    | none => ⟨.valueError, false, stored, none⟩
    | some req =>
      if !call.hasRedis then ⟨.endpointOnly, false, stored, none⟩
      else
        let identifier := resolveIdentifier getIdentifier req
        let key := prefixStr ++ funcName ++ ":" ++ identifier
        let r := is_allowed capacity refill_rate call.now 1 stored call.scriptOk
        if !r.1.1 then
          ⟨.rejected r.1.2.limit r.1.2.remaining r.1.2.reset
              (max 0 (r.1.2.reset - call.nowInt)), true, r.2, some key⟩
        else
          ⟨.endpointWithHeaders r.1.2.limit r.1.2.remaining r.1.2.reset,
            true, r.2, some key⟩

/-- A sequence of `wrapper` invocations threading the store state. -/
def wrapperRun (env : String) (capacity : ℤ) (refill_rate : ℚ)
    (prefixStr funcName : String)
    (getIdentifier : Option (Request → String)) :
    List WrapperCall → Option BucketState →
      List WrapperResult × Option BucketState
  | [], st => ([], st)
  | c :: rest, st =>
      let r := wrapper env capacity refill_rate prefixStr funcName
        getIdentifier c st
      let rr := wrapperRun env capacity refill_rate prefixStr funcName
        getIdentifier rest r.stored
      (r :: rr.1, rr.2)

/-- C6 — test-mode bypass: with `ENVIRONMENT == "test"`, every call in any
sequence of wrapper invocations (any capacity, any requests, any store
behaviour) lets the endpoint run without contacting the store, and the
store state is never touched. -/
theorem C6_test_mode_bypass (capacity : ℤ) (refill_rate : ℚ)
    (prefixStr funcName : String)
    (getIdentifier : Option (Request → String))
    (calls : List WrapperCall) (st : Option BucketState) :
    ((∀ r ∈ (wrapperRun "test" capacity refill_rate prefixStr funcName
        getIdentifier calls st).1,
        r.outcome = WrapperOutcome.endpointOnly ∧ r.storeContacted = false)
      ∧ (wrapperRun "test" capacity refill_rate prefixStr funcName
          getIdentifier calls st).2 = st) := by
  induction calls generalizing st with
  | nil =>
      refine ⟨?_, rfl⟩
      intro r hr
      cases hr
  | cons c rest ih =>
      have hc : wrapper "test" capacity refill_rate prefixStr funcName
          getIdentifier c st
        = ⟨WrapperOutcome.endpointOnly, false, st, none⟩ := by
        simp [wrapper]
      refine ⟨?_, ?_⟩
      · intro r hr
        simp only [wrapperRun, hc] at hr
        rcases List.mem_cons.mp hr with h | h
        · subst h
          exact ⟨rfl, rfl⟩
        · exact (ih st).1 r h
      · simp only [wrapperRun, hc]
        exact (ih st).2

/-- C10 — undocumented fail-open path: outside the test environment, when a
request is present but `app.state` has no Redis client, the wrapper runs
the endpoint with no rate-limit check at all: no store contact, no key, no
rate-limit headers, state untouched. -/
theorem C10_no_redis_client_bypass (env : String) (henv : env ≠ "test")
    (capacity : ℤ) (refill_rate : ℚ) (prefixStr funcName : String)
    (getIdentifier : Option (Request → String)) (req : Request)
    (now : ℚ) (scriptOk : Bool) (nowInt : ℤ) (st : Option BucketState) :
    wrapper env capacity refill_rate prefixStr funcName getIdentifier
        ⟨some req, false, now, scriptOk, nowInt⟩ st
      = ⟨WrapperOutcome.endpointOnly, false, st, none⟩ := by
  simp [wrapper, henv]

/-- Witness for C10 in a production environment, with a concrete request
and a fresh store. -/
theorem C10_no_redis_client_bypass_witness :
    ("production" ≠ "test")
    ∧ wrapper "production" 5 1 "endpoint_rl:" "login" none
        ⟨some ⟨none, none, some "203.0.113.7"⟩, false, 0, true, 0⟩ none
      = ⟨WrapperOutcome.endpointOnly, false, none, none⟩ :=
  ⟨by decide,
    C10_no_redis_client_bypass "production" (by decide) 5 1 "endpoint_rl:"
      "login" none ⟨none, none, some "203.0.113.7"⟩ 0 true 0 none⟩

end TokenBucket
